import Mathlib

/-!
Shallow embedding of `src/mordor/common/streams/pipe.cpp` (class `PipeStream`
and the factory `pipeStream`), together with theorems settling the claims
about its specification.

Modelling conventions:
- A byte buffer (`Buffer`) is a `List Nat`; `copyIn(b, len)` appends the
  first `len` bytes, `consume(n)` drops `n` bytes, `readAvailable()` is the
  length.
- A fiber (task) is identified by a `Nat`; `Scheduler::schedule(fiber)` is
  recorded as a `SchedEvent` appended to a global trace.  Each event also
  records whether the pending-task slot being resumed had already been
  cleared at the moment `schedule` was invoked, so that the ordering of
  `schedule(...)` versus `slot.reset()` in the source is observable.
- The two endpoints of a pair live in one `PipePair` state; `aliveA` and
  `aliveB` model whether each `PipeStream` object still exists
  (`m_otherStream.expired()` on one side is the negation of the other
  side's alive flag).
- Each operation models one pass through the critical section of the
  corresponding member function.  Where the source suspends
  (`yieldTo()` followed by recursion or loop retry), the model returns a
  `blocked` outcome after performing the registration; where a source
  `ASSERT` fires, the model returns an `assertFail` outcome.
- `CloseType` is the bitmask used by the source: NONE = 0, READ = 1,
  WRITE = 2, BOTH = 3.
-/

namespace Mordor

/-- CloseType bitmask value NONE. -/
def NONE : Nat := 0

/-- CloseType bitmask value READ. -/
def READ : Nat := 1

/-- CloseType bitmask value WRITE. -/
def WRITE : Nat := 2

/-- CloseType bitmask value BOTH. -/
def BOTH : Nat := 3

/-- One endpoint of the pipe: the fields of class `PipeStream` (the
weak peer pointer and the shared mutex are represented at the pair level). -/
structure Endpoint where
  readBuffer : List Nat
  bufferSize : Nat
  closed : Nat
  otherClosed : Nat
  pendingReader : Option Nat
  pendingWriter : Option Nat
deriving DecidableEq, Repr

/-- A record of one `Scheduler::schedule(fiber)` call: which fiber was
scheduled, and whether the pending-task slot it was taken from had already
been reset at the time of the call. -/
structure SchedEvent where
  fiber : Nat
  slotClearedAtSchedule : Bool
deriving DecidableEq, Repr

/-- Which endpoint of the pair an operation is invoked on. -/
inductive Side where
  | A
  | B
deriving DecidableEq, Repr

/-- The peer of a side. -/
def Side.peer : Side → Side
  | .A => .B
  | .B => .A

/-- The joint state of a pipe pair: both endpoints, whether each endpoint
object is still alive, and the trace of scheduler events. -/
structure PipePair where
  epA : Endpoint
  epB : Endpoint
  aliveA : Bool
  aliveB : Bool
  trace : List SchedEvent
deriving DecidableEq, Repr

/-- The endpoint record of a side. -/
def PipePair.ep (p : PipePair) : Side → Endpoint
  | .A => p.epA
  | .B => p.epB

/-- Whether the endpoint object of a side still exists
(`m_otherStream.expired()` seen from the peer is the negation of this). -/
def PipePair.alive (p : PipePair) : Side → Bool
  | .A => p.aliveA
  | .B => p.aliveB

/-- Replace the endpoint record of a side. -/
def PipePair.setEp (p : PipePair) (s : Side) (e : Endpoint) : PipePair :=
  match s with
  | .A => { p with epA := e }
  | .B => { p with epB := e }

/-- Mark a side's endpoint object as destroyed. -/
def PipePair.setDead (p : PipePair) (s : Side) : PipePair :=
  match s with
  | .A => { p with aliveA := false }
  | .B => { p with aliveB := false }

/-- Append a scheduler event to the trace. -/
def PipePair.addEvent (p : PipePair) (ev : SchedEvent) : PipePair :=
  { p with trace := p.trace ++ [ev] }

/-- The constructor `PipeStream::PipeStream(size_t bufferSize)`:
empty buffer, both close masks NONE, no pending tasks. -/
def newPipeStream (bufferSize : Nat) : Endpoint :=
  { readBuffer := []
    bufferSize := bufferSize
    closed := NONE
    otherClosed := NONE
    pendingReader := none
    pendingWriter := none }

/-- The factory `std::pair pipeStream(size_t bufferSize)`: if
`bufferSize == ~0u` (the 32-bit all-ones sentinel 4294967295) it becomes
65536; then two endpoints are allocated, linked to each other, and given
one shared mutex. -/
def pipeStream (bufferSize : Nat) : PipePair :=
  let bufferSize := if bufferSize = 4294967295 then 65536 else bufferSize
  { epA := newPipeStream bufferSize
    epB := newPipeStream bufferSize
    aliveA := true
    aliveB := true
    trace := [] }

/-- Outcome of one pass through `PipeStream::read`. -/
inductive ReadOutcome where
  | bytes (data : List Nat)
  | eofZero
  | badHandle
  | brokenPipe
  | blocked (fiber : Nat)
  | assertFail
deriving DecidableEq, Repr

/-- Outcome of one pass through the loop of `PipeStream::write`. -/
inductive WriteOutcome where
  | wrote (n : Nat)
  | badHandle
  | brokenPipe
  | blocked (fiber : Nat)
  | assertFail
deriving DecidableEq, Repr

/-- Outcome of one pass through the loop of `PipeStream::flush`. -/
inductive FlushOutcome where
  | ok
  | brokenPipe
  | blocked (fiber : Nat)
  | assertFail
deriving DecidableEq, Repr

/-- Outcome of `PipeStream::~PipeStream`: whether the ASSERTs about the
peer's pending slots held. -/
inductive DtorOutcome where
  | ok
  | assertFail
deriving DecidableEq, Repr

/-- One pass through the critical section of
`size_t PipeStream::read(Buffer and b, size_t len)` invoked on side `s` by
fiber `fiber`.  Mirrors the source line by line: the self-closed READ
check, the expired-peer check, the drain-and-wake-writer path, the
clean-EOF path, and the register-as-pending-reader path (registration is
on the peer object: `otherStream->m_pendingReader = Fiber::getThis()`).
The source then yields and recurses; the model returns `blocked`. -/
def read (p : PipePair) (s : Side) (len : Nat) (fiber : Nat) :
    ReadOutcome × PipePair :=
  let self := p.ep s
  if self.closed &&& READ ≠ 0 then
    (.badHandle, p)
  else if p.alive s.peer = false ∧ self.otherClosed &&& WRITE = 0 then
    (.brokenPipe, p)
  else
    let avail := self.readBuffer.length
    if 0 < avail then
      let todo := min len avail
      let out := self.readBuffer.take todo
      let self := { self with readBuffer := self.readBuffer.drop todo }
      match self.pendingWriter with
      | some f =>
        -- m_pendingWriterScheduler->schedule(m_pendingWriter); then reset()
        let ev : SchedEvent := ⟨f, self.pendingWriter.isNone⟩
        let self := { self with pendingWriter := none }
        (.bytes out, (p.setEp s self).addEvent ev)
      | none =>
        (.bytes out, p.setEp s self)
    else if self.otherClosed &&& WRITE ≠ 0 then
      (.eofZero, p)
    else
      let other := p.ep s.peer
      -- ASSERT(!otherStream->m_pendingReader)
      if other.pendingReader.isSome then
        (.assertFail, p)
      else
        (.blocked fiber,
          p.setEp s.peer { other with pendingReader := some fiber })

/-- One pass through the while-loop body of
`size_t PipeStream::write(const Buffer and b, size_t len)` invoked on side
`s` by fiber `fiber`.  The clamp `if (len > m_bufferSize) len = m_bufferSize`
precedes the loop in the source; it is applied here at entry.  Then, in
source order: the self-closed WRITE check, the expired-peer check, the
peer-closed READ check, the copy-and-wake-reader path (resuming
`m_pendingReader` of the writing endpoint itself), and the
register-as-pending-writer path (on the peer object:
`otherStream->m_pendingWriter = Fiber::getThis()`). -/
def write (p : PipePair) (s : Side) (b : List Nat) (len : Nat) (fiber : Nat) :
    WriteOutcome × PipePair :=
  let self := p.ep s
  let len := if self.bufferSize < len then self.bufferSize else len
  if self.closed &&& WRITE ≠ 0 then
    (.badHandle, p)
  else if p.alive s.peer = false then
    (.brokenPipe, p)
  else
    let other := p.ep s.peer
    if other.closed &&& READ ≠ 0 then
      (.brokenPipe, p)
    else if other.readBuffer.length + len ≤ self.bufferSize then
      let other := { other with readBuffer := other.readBuffer ++ b.take len }
      let p := p.setEp s.peer other
      match (p.ep s).pendingReader with
      | some f =>
        -- m_pendingReaderScheduler->schedule(m_pendingReader); then reset()
        let ev : SchedEvent := ⟨f, (p.ep s).pendingReader.isNone⟩
        let p := p.setEp s { p.ep s with pendingReader := none }
        (.wrote len, p.addEvent ev)
      | none =>
        (.wrote len, p)
    -- ASSERT(!otherStream->m_pendingWriter)
    else if other.pendingWriter.isSome then
      (.assertFail, p)
    else
      (.blocked fiber,
        p.setEp s.peer { other with pendingWriter := some fiber })

/-- One pass through the while-loop body of `void PipeStream::flush()`
invoked on side `s` by fiber `fiber`: the expired-peer check, the
peer-closed READ check, the return when the peer's read buffer is fully
drained, and the register-as-pending-writer path.  Note the source never
consults the caller's own `m_closed`. -/
def flush (p : PipePair) (s : Side) (fiber : Nat) :
    FlushOutcome × PipePair :=
  if p.alive s.peer = false then
    (.brokenPipe, p)
  else
    let other := p.ep s.peer
    if other.closed &&& READ ≠ 0 then
      (.brokenPipe, p)
    else if other.readBuffer.length = 0 then
      (.ok, p)
    -- ASSERT(!otherStream->m_pendingWriter)
    else if other.pendingWriter.isSome then
      (.assertFail, p)
    else
      (.blocked fiber,
        p.setEp s.peer { other with pendingWriter := some fiber })

/-- `void PipeStream::close(CloseType type)` on side `s`: merge `type` into
`m_closed`; if the peer object is alive, push the merged value into its
`m_otherClosed`; then, if a pending reader is registered here and the merged
close includes WRITE, schedule it and reset the slot; likewise for a pending
writer when the merged close includes READ. -/
def close (p : PipePair) (s : Side) (type : Nat) : PipePair :=
  let closedNow := (p.ep s).closed ||| type
  let p := p.setEp s { p.ep s with closed := closedNow }
  let p :=
    if p.alive s.peer then
      p.setEp s.peer { p.ep s.peer with otherClosed := closedNow }
    else
      p
  let p :=
    match (p.ep s).pendingReader with
    | some f =>
      if closedNow &&& WRITE ≠ 0 then
        -- m_pendingReaderScheduler->schedule(m_pendingReader); then reset()
        let ev : SchedEvent := ⟨f, (p.ep s).pendingReader.isNone⟩
        (p.setEp s { p.ep s with pendingReader := none }).addEvent ev
      else
        p
    | none => p
  match (p.ep s).pendingWriter with
  | some f =>
    if closedNow &&& READ ≠ 0 then
      -- m_pendingWriterScheduler->schedule(m_pendingWriter); then reset()
      let ev : SchedEvent := ⟨f, (p.ep s).pendingWriter.isNone⟩
      (p.setEp s { p.ep s with pendingWriter := none }).addEvent ev
    else
      p
  | none => p

/-- `PipeStream::~PipeStream()` on side `s`: if the peer object is alive,
`ASSERT` that the peer has no pending reader and no pending writer; then
unconditionally schedule and clear any pending reader and pending writer
registered on this endpoint itself, and mark this endpoint destroyed. -/
def destroy (p : PipePair) (s : Side) : DtorOutcome × PipePair :=
  if p.alive s.peer ∧
      ((p.ep s.peer).pendingReader.isSome ∨ (p.ep s.peer).pendingWriter.isSome) then
    (.assertFail, p)
  else
    let p :=
      match (p.ep s).pendingReader with
      | some f =>
        -- m_pendingReaderScheduler->schedule(m_pendingReader); then reset()
        let ev : SchedEvent := ⟨f, (p.ep s).pendingReader.isNone⟩
        (p.setEp s { p.ep s with pendingReader := none }).addEvent ev
      | none => p
    let p :=
      match (p.ep s).pendingWriter with
      | some f =>
        -- m_pendingWriterScheduler->schedule(m_pendingWriter); then reset()
        let ev : SchedEvent := ⟨f, (p.ep s).pendingWriter.isNone⟩
        (p.setEp s { p.ep s with pendingWriter := none }).addEvent ev
      | none => p
    (.ok, p.setDead s)

/-! Helper lemmas about the pair-state accessors. -/

@[simp]
theorem Side.peer_peer (s : Side) : s.peer.peer = s := by
  cases s <;> rfl

@[simp]
theorem ep_setEp_self (p : PipePair) (s : Side) (e : Endpoint) :
    (p.setEp s e).ep s = e := by
  cases s <;> rfl

@[simp]
theorem ep_setEp_peer (p : PipePair) (s : Side) (e : Endpoint) :
    (p.setEp s.peer e).ep s = p.ep s := by
  cases s <;> rfl

@[simp]
theorem ep_setEp_peer' (p : PipePair) (s : Side) (e : Endpoint) :
    (p.setEp s e).ep s.peer = p.ep s.peer := by
  cases s <;> rfl

@[simp]
theorem alive_setEp (p : PipePair) (s t : Side) (e : Endpoint) :
    (p.setEp s e).alive t = p.alive t := by
  cases s <;> cases t <;> rfl

@[simp]
theorem trace_setEp (p : PipePair) (s : Side) (e : Endpoint) :
    (p.setEp s e).trace = p.trace := by
  cases s <;> rfl

@[simp]
theorem ep_addEvent (p : PipePair) (ev : SchedEvent) (s : Side) :
    (p.addEvent ev).ep s = p.ep s := by
  cases s <;> rfl

@[simp]
theorem alive_addEvent (p : PipePair) (ev : SchedEvent) (s : Side) :
    (p.addEvent ev).alive s = p.alive s := by
  cases s <;> rfl

@[simp]
theorem trace_addEvent (p : PipePair) (ev : SchedEvent) :
    (p.addEvent ev).trace = p.trace ++ [ev] := rfl

@[simp]
theorem ep_setDead (p : PipePair) (s t : Side) :
    (p.setDead s).ep t = p.ep t := by
  cases s <;> cases t <;> rfl

@[simp]
theorem trace_setDead (p : PipePair) (s : Side) :
    (p.setDead s).trace = p.trace := by
  cases s <;> rfl

/-- C1 counterexample: the empty byte sequence (N = 0, N ≤ capacity)
breaks the round-trip: the write returns 0 as claimed, but the peer's read
of 0 bytes does not return the 0 written bytes — it suspends the reading
task instead (the read path treats an empty buffer with a live,
not-write-closed peer as a reason to block). -/
theorem C1_zero_length_read_blocks :
    (write (pipeStream 16) .A [] 0 0).fst = .wrote 0 ∧
    (read (write (pipeStream 16) .A [] 0 0).snd .B 0 1).fst = .blocked 1 ∧
    (read (write (pipeStream 16) .A [] 0 0).snd .B 0 1).fst ≠ .bytes [] := by
  decide

/-- C1 (amended): for every byte sequence of length N with 1 ≤ N ≤ capacity,
writing those N bytes on endpoint A of a fresh pair and then reading N bytes
on the peer endpoint B returns exactly the same N bytes in the same order:
the write returns N and the read returns the written bytes. -/
theorem C1_round_trip_amended (cap : Nat) (data : List Nat)
    (h1 : 1 ≤ data.length)
    (h2 : data.length ≤ ((pipeStream cap).ep .A).bufferSize) :
    (write (pipeStream cap) .A data data.length 0).fst = .wrote data.length ∧
    (read (write (pipeStream cap) .A data data.length 0).snd .B
        data.length 1).fst = .bytes data := by
  have hps : pipeStream cap =
      { epA := newPipeStream (if cap = 4294967295 then 65536 else cap)
        epB := newPipeStream (if cap = 4294967295 then 65536 else cap)
        aliveA := true
        aliveB := true
        trace := [] } := rfl
  rw [hps] at h2 ⊢
  generalize (if cap = 4294967295 then 65536 else cap) = bs at h2 ⊢
  simp only [PipePair.ep, newPipeStream] at h2
  simp [write, read, newPipeStream, PipePair.ep, PipePair.alive,
    PipePair.setEp, Side.peer, NONE, READ, WRITE,
    Nat.not_lt.mpr h2, h2, Nat.lt_of_lt_of_le h1, Nat.min_self,
    List.take_length, Nat.pos_of_ne_zero]

/-- C1 witness: the amended round-trip at capacity 16 with the three bytes
1, 2, 3. -/
theorem C1_round_trip_witness :
    (write (pipeStream 16) .A [1, 2, 3] 3 0).fst = .wrote 3 ∧
    (read (write (pipeStream 16) .A [1, 2, 3] 3 0).snd .B 3 1).fst
      = .bytes [1, 2, 3] :=
  C1_round_trip_amended 16 [1, 2, 3] (by decide) (by decide)

/-- C2: capacity invariant.  First part: whenever a write completes
(returns `wrote n`), the receiving endpoint's inbound buffer holds at most
`bufferSize` bytes afterwards (the bound the source checks, `m_bufferSize`
of the writer, equals the receiver's capacity for pairs built by
`pipeStream`).  Second part: a write whose copy would exceed the capacity
is not applied — the buffer is unchanged and the writing fiber is instead
registered as the pending writer. -/
theorem C2_capacity_invariant (p : PipePair) (s : Side) (b : List Nat)
    (len fiber n : Nat) :
    ((write p s b len fiber).fst = .wrote n →
      ((write p s b len fiber).snd.ep s.peer).readBuffer.length
        ≤ (p.ep s).bufferSize) ∧
    ((p.ep s).closed &&& WRITE = 0 →
     p.alive s.peer = true →
     (p.ep s.peer).closed &&& READ = 0 →
     (p.ep s).bufferSize <
       (p.ep s.peer).readBuffer.length
         + (if (p.ep s).bufferSize < len then (p.ep s).bufferSize else len) →
     (p.ep s.peer).pendingWriter = none →
     (write p s b len fiber).fst = .blocked fiber ∧
     ((write p s b len fiber).snd.ep s.peer).readBuffer
        = (p.ep s.peer).readBuffer ∧
     ((write p s b len fiber).snd.ep s.peer).pendingWriter = some fiber) := by
  constructor
  · intro hw
    simp only [write] at hw ⊢
    split_ifs at hw ⊢ with h1 h2 h3 h4
    all_goals
      rcases hpr : (p.ep s).pendingReader with _ | f <;>
        simp_all [List.length_append, List.length_take] <;> omega
  · intro g1 g2 g3 g4 g5
    simp only [write]
    rw [if_neg (by simp [g1])]
    rw [if_neg (by simp [g2])]
    rw [if_neg (by simp [g3])]
    rw [if_neg (by omega)]
    rw [if_neg (by simp [g5])]
    simp

/-- C2 witness: at capacity 2, a completing write of two bytes leaves at
most 2 bytes buffered, and a further one-byte write is not applied — it
blocks and registers fiber 7 as the pending writer. -/
theorem C2_capacity_invariant_witness :
    ((write (pipeStream 2) .A [1, 2] 2 0).snd.ep Side.A.peer).readBuffer.length
      ≤ ((pipeStream 2).ep .A).bufferSize ∧
    (write (write (pipeStream 2) .A [1, 2] 2 0).snd .A [9] 1 7).fst
      = .blocked 7 :=
  ⟨(C2_capacity_invariant (pipeStream 2) .A [1, 2] 2 0 2).1 (by decide),
   ((C2_capacity_invariant (write (pipeStream 2) .A [1, 2] 2 0).snd .A
       [9] 1 7 0).2 (by decide) (by decide) (by decide) (by decide)
       (by decide)).1⟩

/-- C3: clean end-of-stream.  On an endpoint whose own Read direction is
open, whose inbound buffer is empty, and whose recorded peer close state
includes WRITE, read returns 0 (the `eofZero` outcome) rather than raising
an error. -/
theorem C3_clean_eof (p : PipePair) (s : Side) (len fiber : Nat)
    (h1 : (p.ep s).closed &&& READ = 0)
    (h2 : (p.ep s).readBuffer = [])
    (h3 : (p.ep s).otherClosed &&& WRITE ≠ 0) :
    (read p s len fiber).fst = .eofZero := by
  simp [read, h1, h2, h3]

/-- The pair after endpoint A writes the bytes 1..5 and then closes its
Write direction. -/
def eofScenario : PipePair :=
  close (write (pipeStream 16) .A [1, 2, 3, 4, 5] 5 0).snd .A WRITE

/-- The pair of `eofScenario` after endpoint B has read the five bytes. -/
def eofScenarioDrained : PipePair :=
  (read eofScenario .B 5 1).snd

/-- C3 witness: endpoint A writes 5 bytes and closes Write; a first read
on B returns those 5 bytes, and a further read on B returns 0. -/
theorem C3_clean_eof_witness :
    (read eofScenario .B 5 1).fst = .bytes [1, 2, 3, 4, 5] ∧
    (read eofScenarioDrained .B 5 2).fst = .eofZero :=
  ⟨by decide,
   C3_clean_eof eofScenarioDrained .B 5 2 (by decide) (by decide) (by decide)⟩

/-- C4: write error conditions.  A write fails with `badHandle`
(HandleMisuse) exactly when the writing endpoint's own close state
includes WRITE — this check comes first, regardless of the peer's state.
Otherwise, it fails with `brokenPipe` (PeerUnavailable) exactly when the
peer object is gone or the peer's own close state includes READ. -/
theorem C4_write_error_conditions (p : PipePair) (s : Side) (b : List Nat)
    (len fiber : Nat) :
    ((write p s b len fiber).fst = .badHandle ↔
      (p.ep s).closed &&& WRITE ≠ 0) ∧
    ((p.ep s).closed &&& WRITE = 0 →
      ((write p s b len fiber).fst = .brokenPipe ↔
        (p.alive s.peer = false ∨ (p.ep s.peer).closed &&& READ ≠ 0))) := by
  simp only [write]
  split_ifs <;>
    rcases hpr : (p.ep s).pendingReader with _ | f <;> simp_all

/-- C4 witness: after endpoint A closes Read, a write on peer B fails with
`brokenPipe` (PeerUnavailable). -/
theorem C4_write_error_conditions_witness :
    (write (close (pipeStream 4) .A READ) .B [5] 1 0).fst = .brokenPipe :=
  ((C4_write_error_conditions (close (pipeStream 4) .A READ) .B [5] 1 0).2
    (by decide)).mpr (Or.inr (by decide))

/-- The pair after endpoint A writes one byte (value 7) into B and is then
destroyed without having closed anything. -/
def peerGoneScenario : PipePair :=
  (destroy (write (pipeStream 4) .A [7] 1 0).snd .A).snd

/-- C5 counterexample: endpoint A writes one byte and is destroyed (without
closing); endpoint B's inbound buffer still holds that byte, yet a read on
B fails with `brokenPipe` instead of returning the buffered byte — the
expired-peer check precedes the buffered-data check, and the destructor
never records a Write close in the survivor's `m_otherClosed`. -/
theorem C5_buffered_read_fails_after_destroy :
    (destroy (write (pipeStream 4) .A [7] 1 0).snd .A).fst = .ok ∧
    (peerGoneScenario.ep .B).readBuffer = [7] ∧
    (read peerGoneScenario .B 1 1).fst = .brokenPipe ∧
    (read peerGoneScenario .B 1 1).fst ≠ .bytes [7] := by
  decide

/-- C5 (amended): after the peer endpoint is gone, a subsequent write
fails with `brokenPipe`; a subsequent read fails with `brokenPipe`
whenever the last close state the peer pushed did not include WRITE —
even if buffered data remains; only when the recorded peer close state
includes WRITE does a read with buffered data still succeed, returning
the buffered bytes. -/
theorem C5_peer_gone_amended (p : PipePair) (s : Side) (b : List Nat)
    (len fiber : Nat)
    (hdead : p.alive s.peer = false) :
    ((p.ep s).closed &&& WRITE = 0 →
      (write p s b len fiber).fst = .brokenPipe) ∧
    ((p.ep s).closed &&& READ = 0 →
     (p.ep s).otherClosed &&& WRITE = 0 →
      (read p s len fiber).fst = .brokenPipe) ∧
    ((p.ep s).closed &&& READ = 0 →
     (p.ep s).otherClosed &&& WRITE ≠ 0 →
     (p.ep s).readBuffer ≠ [] →
      (read p s len fiber).fst
        = .bytes ((p.ep s).readBuffer.take
            (min len (p.ep s).readBuffer.length))) := by
  refine ⟨fun h1 => ?_, fun h1 h2 => ?_, fun h1 h2 h3 => ?_⟩
  · simp only [write]
    rw [if_neg (by simp [h1])]
    rw [if_pos (by simp [hdead])]
  · simp [read, h1, h2, hdead]
  · have hlen : 0 < (p.ep s).readBuffer.length :=
      List.length_pos.mpr h3
    simp only [read]
    rw [if_neg (by simp [h1])]
    rw [if_neg (by simp [h2])]
    rw [if_pos hlen]
    rcases hpw : ({ (p.ep s) with
        readBuffer := (p.ep s).readBuffer.drop
          (min len (p.ep s).readBuffer.length) } : Endpoint).pendingWriter
      with _ | f <;> simp [hpw]

/-- C5 witness: with a peer destroyed after closing Write, a buffered read
still succeeds; the amended theorem applied where the peer had closed
Write and left one byte (value 9) buffered. -/
theorem C5_peer_gone_witness :
    (read
      (destroy (close (write (pipeStream 4) .A [9] 1 0).snd .A WRITE) .A).snd
      .B 1 1).fst = .bytes [9] :=
  (C5_peer_gone_amended
      (destroy (close (write (pipeStream 4) .A [9] 1 0).snd .A WRITE) .A).snd
      .B [] 1 1 (by decide)).2.2 (by decide) (by decide) (by decide)

/-- C6: single-waiter invariant.  A read that reaches its registration
step while a pending reader is already registered returns `assertFail`
(the fatal ProtocolViolation), and likewise a write that reaches its
registration step while a pending writer is already registered — neither
is silently queued nor reported as a recoverable error outcome. -/
theorem C6_single_waiter (p : PipePair) (s : Side) (b : List Nat)
    (len fiber : Nat) :
    ((p.ep s).closed &&& READ = 0 →
     p.alive s.peer = true →
     (p.ep s).readBuffer = [] →
     (p.ep s).otherClosed &&& WRITE = 0 →
     (p.ep s.peer).pendingReader.isSome = true →
      (read p s len fiber).fst = .assertFail) ∧
    ((p.ep s).closed &&& WRITE = 0 →
     p.alive s.peer = true →
     (p.ep s.peer).closed &&& READ = 0 →
     (p.ep s).bufferSize <
       (p.ep s.peer).readBuffer.length
         + (if (p.ep s).bufferSize < len then (p.ep s).bufferSize else len) →
     (p.ep s.peer).pendingWriter.isSome = true →
      (write p s b len fiber).fst = .assertFail) := by
  constructor
  · intro h1 h2 h3 h4 h5
    simp [read, h1, h2, h3, h4, h5]
  · intro h1 h2 h3 h4 h5
    simp only [write]
    rw [if_neg (by simp [h1])]
    rw [if_neg (by simp [h2])]
    rw [if_neg (by simp [h3])]
    rw [if_neg (by omega)]
    rw [if_pos h5]

/-- The pair in which fiber 5 is already blocked in a read on endpoint A
(hence registered as pending reader on B), before a second read on A. -/
def doubleReadScenario : PipePair :=
  (read (pipeStream 8) .A 1 5).snd

/-- C6 witness: a second concurrent read on endpoint A while fiber 5 is
still pending trips the fatal assertion. -/
theorem C6_single_waiter_witness :
    (read doubleReadScenario .A 1 6).fst = .assertFail :=
  (C6_single_waiter doubleReadScenario .A [] 1 6).1
    (by decide) (by decide) (by decide) (by decide) (by decide)

/-- C7 counterexample: a read on endpoint A of a fresh pair blocks and
registers fiber 5 as the pending reader of the PEER endpoint B
(`otherStream->m_pendingReader = Fiber::getThis()`), leaving A's own
pendingReader slot empty — not, as claimed, in A's own slot. -/
theorem C7_read_registers_on_peer_not_self :
    (read (pipeStream 8) .A 1 5).fst = .blocked 5 ∧
    ((read (pipeStream 8) .A 1 5).snd.ep .A).pendingReader = none ∧
    ((read (pipeStream 8) .A 1 5).snd.ep .B).pendingReader = some 5 := by
  decide

/-- C7 (amended): registration is symmetric, always on the peer object: a
blocking read on endpoint E registers the calling fiber in the PEER's
pendingReader slot (E's own slot is untouched), a blocking write registers
in the peer's pendingWriter slot, and a write that completes with a copy
resumes the pending reader registered on the WRITING endpoint E itself
(scheduling that fiber and clearing E's slot, while the receiving peer's
pendingReader slot is untouched). -/
theorem C7_registration_amended (p : PipePair) (s : Side) (b : List Nat)
    (len fiber g : Nat) :
    ((p.ep s).closed &&& READ = 0 →
     p.alive s.peer = true →
     (p.ep s).readBuffer = [] →
     (p.ep s).otherClosed &&& WRITE = 0 →
     (p.ep s.peer).pendingReader = none →
      (read p s len fiber).fst = .blocked fiber ∧
      ((read p s len fiber).snd.ep s.peer).pendingReader = some fiber ∧
      ((read p s len fiber).snd.ep s).pendingReader
        = (p.ep s).pendingReader) ∧
    ((p.ep s).closed &&& WRITE = 0 →
     p.alive s.peer = true →
     (p.ep s.peer).closed &&& READ = 0 →
     (p.ep s).bufferSize <
       (p.ep s.peer).readBuffer.length
         + (if (p.ep s).bufferSize < len then (p.ep s).bufferSize else len) →
     (p.ep s.peer).pendingWriter = none →
      (write p s b len fiber).fst = .blocked fiber ∧
      ((write p s b len fiber).snd.ep s.peer).pendingWriter = some fiber ∧
      ((write p s b len fiber).snd.ep s).pendingWriter
        = (p.ep s).pendingWriter) ∧
    ((p.ep s).closed &&& WRITE = 0 →
     p.alive s.peer = true →
     (p.ep s.peer).closed &&& READ = 0 →
     (p.ep s.peer).readBuffer.length
         + (if (p.ep s).bufferSize < len then (p.ep s).bufferSize else len)
       ≤ (p.ep s).bufferSize →
     (p.ep s).pendingReader = some g →
      (write p s b len fiber).snd.trace
        = p.trace ++ [⟨g, false⟩] ∧
      ((write p s b len fiber).snd.ep s).pendingReader = none ∧
      ((write p s b len fiber).snd.ep s.peer).pendingReader
        = (p.ep s.peer).pendingReader) := by
  refine ⟨fun h1 h2 h3 h4 h5 => ?_, fun h1 h2 h3 h4 h5 => ?_,
    fun h1 h2 h3 h4 h5 => ?_⟩
  · simp [read, h1, h2, h3, h4, h5]
  · simp only [write]
    rw [if_neg (by simp [h1])]
    rw [if_neg (by simp [h2])]
    rw [if_neg (by simp [h3])]
    rw [if_neg (by omega)]
    rw [if_neg (by simp [h5])]
    simp
  · simp only [write]
    rw [if_neg (by simp [h1])]
    rw [if_neg (by simp [h2])]
    rw [if_neg (by simp [h3])]
    rw [if_pos h4]
    simp [h5]

/-- C7 witness: on a fresh pair of capacity 8, a blocking read on A
registers fiber 5 on B's pendingReader slot and leaves A's slot as it
was. -/
theorem C7_registration_witness :
    (read (pipeStream 8) .A 1 5).fst = .blocked 5 ∧
    ((read (pipeStream 8) .A 1 5).snd.ep Side.A.peer).pendingReader
      = some 5 ∧
    ((read (pipeStream 8) .A 1 5).snd.ep .A).pendingReader
      = ((pipeStream 8).ep .A).pendingReader :=
  (C7_registration_amended (pipeStream 8) .A [] 1 5 0).1
    (by decide) (by decide) (by decide) (by decide) (by decide)

/-- The pair in which endpoint B's buffer is full (capacity 2, bytes 1, 2
buffered) and fiber 7 is blocked in a write on A, registered as B's
pending writer. -/
def backpressureScenario : PipePair :=
  (write (write (pipeStream 2) .A [1, 2] 2 0).snd .A [9] 1 7).snd

/-- C8 counterexample: when the read on B drains the buffer and resumes
the blocked writer (fiber 7), the `schedule` call happens while the
pendingWriter slot still holds the fiber — the slot is cleared only
afterwards, so the recorded event has `slotClearedAtSchedule = false`,
contradicting the claim that every resume path clears the field first. -/
theorem C8_schedule_before_clear :
    (read backpressureScenario .B 2 1).snd.trace = [⟨7, false⟩] ∧
    ∀ e ∈ (read backpressureScenario .B 2 1).snd.trace,
      e.slotClearedAtSchedule ≠ true := by
  decide

/-- C8 (amended): every code path that resumes a pendingReader or
pendingWriter — in read, write, close and the destructor — schedules the
task FIRST and clears the pending-task field immediately afterwards,
before the operation returns (and hence before the shared lock is
released): every scheduler event is emitted with the slot still occupied
(`slotClearedAtSchedule = false`), and the corresponding slot is empty in
the resulting state. -/
theorem C8_resumption_amended (p : PipePair) (s : Side) (b : List Nat)
    (len fiber type : Nat) :
    ((∀ e ∈ ((read p s len fiber).snd.trace).drop p.trace.length,
        e.slotClearedAtSchedule = false) ∧
     ((read p s len fiber).snd.trace ≠ p.trace →
        ((read p s len fiber).snd.ep s).pendingWriter = none)) ∧
    ((∀ e ∈ ((write p s b len fiber).snd.trace).drop p.trace.length,
        e.slotClearedAtSchedule = false) ∧
     ((write p s b len fiber).snd.trace ≠ p.trace →
        ((write p s b len fiber).snd.ep s).pendingReader = none)) ∧
    ((∀ e ∈ ((close p s type).trace).drop p.trace.length,
        e.slotClearedAtSchedule = false) ∧
     (((p.ep s).closed ||| type) &&& WRITE ≠ 0 →
        ((close p s type).ep s).pendingReader = none) ∧
     (((p.ep s).closed ||| type) &&& READ ≠ 0 →
        ((close p s type).ep s).pendingWriter = none)) ∧
    ((∀ e ∈ ((destroy p s).snd.trace).drop p.trace.length,
        e.slotClearedAtSchedule = false) ∧
     ((destroy p s).fst = .ok →
        ((destroy p s).snd.ep s).pendingReader = none ∧
        ((destroy p s).snd.ep s).pendingWriter = none)) := by
  refine ⟨⟨?_, ?_⟩, ⟨?_, ?_⟩, ⟨?_, ?_, ?_⟩, ⟨?_, ?_⟩⟩
  · simp only [read]
    repeat' split
    all_goals simp_all [List.drop_left, List.drop_length, List.append_assoc]
  · intro hne
    simp only [read] at hne ⊢
    repeat' split
    all_goals simp_all
  · simp only [write]
    repeat' split
    all_goals simp_all [List.drop_left, List.drop_length, List.append_assoc]
  · intro hne
    simp only [write] at hne ⊢
    repeat' split
    all_goals simp_all
  · simp only [close]
    repeat' split
    all_goals simp_all [List.drop_left, List.drop_length, List.append_assoc]
  · intro hclose
    simp only [close]
    repeat' split
    all_goals simp_all
  · intro hclose
    simp only [close]
    repeat' split
    all_goals simp_all
  · simp only [destroy]
    repeat' split
    all_goals simp_all [List.drop_left, List.drop_length, List.append_assoc]
  · intro hok
    simp only [destroy] at hok ⊢
    repeat' split
    all_goals simp_all

/-- C8 witness: the amended contract at the backpressure scenario — the
drain emits exactly one event, scheduled before the clear, and B's
pendingWriter slot is empty afterwards. -/
theorem C8_resumption_witness :
    (∀ e ∈ ((read backpressureScenario .B 2 1).snd.trace).drop
        backpressureScenario.trace.length,
      e.slotClearedAtSchedule = false) ∧
    ((read backpressureScenario .B 2 1).snd.ep .B).pendingWriter = none :=
  ⟨(C8_resumption_amended backpressureScenario .B [] 2 1 0).1.1,
   (C8_resumption_amended backpressureScenario .B [] 2 1 0).1.2 (by decide)⟩

/-- C9 counterexample: the factory does not validate positivity — called
with capacity 0 it still constructs both endpoints, alive and linked, with
buffer size 0 (and a write on the resulting pair is accepted, degenerating
to a zero-byte copy rather than being rejected at creation). -/
theorem C9_zero_capacity_accepted :
    pipeStream 0
      = { epA := newPipeStream 0
          epB := newPipeStream 0
          aliveA := true
          aliveB := true
          trace := [] } ∧
    ((pipeStream 0).ep .A).bufferSize = 0 ∧
    (write (pipeStream 0) .A [1] 1 0).fst = .wrote 0 := by
  decide

/-- C9 (amended): the factory accepts any byte count without validation;
the sentinel value 4294967295 (the 32-bit all-ones `~0u`) is mapped to the
default 65536 before the two endpoints are created; both endpoints start
alive with that buffer size, no close flags, empty buffers, and no pending
tasks. -/
theorem C9_factory_amended (cap : Nat) :
    ((pipeStream cap).ep .A).bufferSize
        = (if cap = 4294967295 then 65536 else cap) ∧
    ((pipeStream cap).ep .B).bufferSize
        = (if cap = 4294967295 then 65536 else cap) ∧
    (pipeStream cap).alive .A = true ∧
    (pipeStream cap).alive .B = true ∧
    ((pipeStream cap).ep .A).closed = NONE ∧
    ((pipeStream cap).ep .B).closed = NONE ∧
    ((pipeStream cap).ep .A).otherClosed = NONE ∧
    ((pipeStream cap).ep .B).otherClosed = NONE ∧
    ((pipeStream cap).ep .A).readBuffer = [] ∧
    ((pipeStream cap).ep .B).readBuffer = [] ∧
    ((pipeStream cap).ep .A).pendingReader = none ∧
    ((pipeStream cap).ep .A).pendingWriter = none ∧
    ((pipeStream cap).ep .B).pendingReader = none ∧
    ((pipeStream cap).ep .B).pendingWriter = none ∧
    ((pipeStream 4294967295).ep .A).bufferSize = 65536 := by
  simp [pipeStream, newPipeStream, PipePair.ep, PipePair.alive]

/-- C10: flush never checks the caller's own Write close flag — on an
endpoint that has closed its own Write direction, flush still returns
successfully whenever the peer is alive, the peer has not closed Read,
and the peer's inbound buffer is empty. -/
theorem C10_flush_ignores_own_write_close (p : PipePair) (s : Side)
    (fiber : Nat)
    (_hW : (p.ep s).closed &&& WRITE ≠ 0)
    (hAlive : p.alive s.peer = true)
    (hR : (p.ep s.peer).closed &&& READ = 0)
    (hEmpty : (p.ep s.peer).readBuffer = []) :
    (flush p s fiber).fst = .ok := by
  simp [flush, hAlive, hR, hEmpty]

/-- The pair after endpoint A closes its own Write direction. -/
def selfWriteClosedScenario : PipePair :=
  close (pipeStream 4) .A WRITE

/-- C10 witness: endpoint A has closed Write, the peer is alive with Read
open and an empty buffer, and flush on A succeeds. -/
theorem C10_flush_witness :
    (flush selfWriteClosedScenario .A 0).fst = .ok :=
  C10_flush_ignores_own_write_close selfWriteClosedScenario .A 0
    (by decide) (by decide) (by decide) (by decide)

end Mordor
